import Mathlib

/-!
Shallow embedding of `src/book_search_api/book_search_api.py`.

Strings are modelled as `List Char`.  Python exceptions are modelled with
`Except IsbnError`:
* `IndexError` (raised by `number[-1]` on an empty string) is `.indexError`;
* the `ValueError` raised for a bad length / format is `.invalidFormat`;
* the `ValueError` raised by `calc_both_isbn` for a non-`str`/`int` argument
  is `.invalidArgument`;
* the `ValueError` that `int(digit)` would raise on a non-digit character is
  `.valueError` (provably unreachable on the paths the converters take).

Python's `str.isdecimal` is modelled on the ASCII range (the ISBN domain);
`str(check_digit)` for a one-digit number is `Char.ofNat (48 + n)`.
-/

/-- Error classes of the Python reference implementation. -/
inductive IsbnError where
  | invalidFormat
  | invalidArgument
  | indexError
  | valueError
  deriving DecidableEq, Repr

/-- Equality of `Except` values is decidable when it is on both sides. -/
instance {ε α : Type} [DecidableEq ε] [DecidableEq α] : DecidableEq (Except ε α) := by
  intro a b
  cases a <;> cases b
  case error.error e f => exact decidable_of_iff (e = f) (by simp)
  case ok.ok x y => exact decidable_of_iff (x = y) (by simp)
  all_goals exact .isFalse (by intro h; exact Except.noConfusion h)

/-- Model of Python `str.isdecimal` on a single character (ASCII digits). -/
def isdecimal (c : Char) : Bool := 48 ≤ c.toNat && c.toNat ≤ 57

/-- Model of Python `int(digit)` on a single character: its numeric value for
a decimal digit, `ValueError` otherwise. -/
def pyInt (c : Char) : Except IsbnError Nat :=
  if isdecimal c then .ok (c.toNat - 48) else .error .valueError

/-- Model of Python `str(d)` for a one-digit number `d`. -/
def strDigit (n : Nat) : Char := Char.ofNat (48 + n)

/-- Embedding of `only_number`: if the last character of the input is the
literal `X` it is removed and remembered, the rest is filtered down to the
decimal digits, and the `X` is re-appended.  Reading `number[-1]` of an empty
string raises `IndexError`. -/
def only_number (number : List Char) : Except IsbnError (List Char) :=
  match number.getLast? with
  | none => .error .indexError
  | some c =>
    if c = 'X' then
      .ok (number.dropLast.filter isdecimal ++ ['X'])
    else
      .ok (number.filter isdecimal)

/-- The check-digit accumulation loop shared by both converters:
`for i, digit in enumerate(body): check_digit += int(digit) * w(i)`,
threading the `ValueError` that `int` would raise on a non-digit. -/
def weightedCharSum (w : Nat → Nat) : List Char → Nat → Nat → Except IsbnError Nat
  | [], _, acc => .ok acc
  | c :: cs, i, acc =>
    match pyInt c with
    | .error e => .error e
    | .ok d => weightedCharSum w cs (i + 1) (acc + d * w i)

/-- The value computed by `weightedCharSum` when every character is a digit. -/
def digitSum (w : Nat → Nat) : List Char → Nat → Nat
  | [], _ => 0
  | c :: cs, i => (c.toNat - 48) * w i + digitSum w cs (i + 1)

/-- ISBN-13 weights: `1` at even 0-indexed positions, `3` at odd ones. -/
def w13 (i : Nat) : Nat := if i % 2 = 0 then 1 else 3

/-- ISBN-10 weights: `10 - i` at position `i`. -/
def w10 (i : Nat) : Nat := 10 - i

/-- Embedding of `isbn10_to_isbn13`. -/
def isbn10_to_isbn13 (isbn10 : List Char) : Except IsbnError (List Char) :=
  match only_number isbn10 with
  | .error e => .error e
  | .ok s =>
    if s.length ≠ 10 then .error .invalidFormat
    else
      let isbn13_body := ['9', '7', '8'] ++ s.dropLast
      match weightedCharSum w13 isbn13_body 0 0 with
      | .error e => .error e
      | .ok sum => .ok (isbn13_body ++ [strDigit ((10 - sum % 10) % 10)])

/-- Embedding of `isbn13_to_isbn10`. -/
def isbn13_to_isbn10 (isbn13 : List Char) : Except IsbnError (List Char) :=
  match only_number isbn13 with
  | .error e => .error e
  | .ok s =>
    if s.length ≠ 13 ∨ ¬ s.take 3 = ['9', '7', '8'] then .error .invalidFormat
    else
      let isbn10_body := (s.drop 3).dropLast
      match weightedCharSum w10 isbn10_body 0 0 with
      | .error e => .error e
      | .ok sum =>
        let cd := (11 - sum % 11) % 11
        .ok (isbn10_body ++ (if cd = 10 then ['X'] else [strDigit cd]))

/-- The ISBN-10 check character determined by a 9-digit body: the modulo-11
check digit, rendered as `X` when it equals 10. -/
def isbn10CheckChar (b : List Char) : Char :=
  let cd := (11 - digitSum w10 b 0 % 11) % 11
  if cd = 10 then 'X' else strDigit cd

/-- The possible runtime types of the argument of `calc_both_isbn`. -/
inductive PyVal where
  | str (s : List Char)
  | int (n : Int)
  | other
  deriving Repr

/-- Model of Python `str(n)` for an integer `n` (its decimal form). -/
def intChars (n : Int) : List Char := (toString n).toList

/-- The string-argument body of `calc_both_isbn` (everything after the
`isinstance` coercion). -/
def calcBothCore (isbn : List Char) : Except IsbnError (List Char × List Char) :=
  match only_number isbn with
  | .error e => .error e
  | .ok isbn_number =>
    if isbn_number.length = 10 then
      match isbn10_to_isbn13 isbn_number with
      | .error e => .error e
      | .ok isbn13 => .ok (isbn_number, isbn13)
    else if isbn_number.length = 13 then
      match isbn13_to_isbn10 isbn_number with
      | .error e => .error e
      | .ok isbn10 => .ok (isbn10, isbn_number)
    else .error .invalidFormat

/-- Embedding of `calc_both_isbn`: an `int` is coerced to its decimal string,
any non-`str`/`int` argument raises `ValueError`, and the pair
(ISBN-10, ISBN-13) is computed from the normalized string. -/
def calc_both_isbn (isbn : PyVal) : Except IsbnError (List Char × List Char) :=
  match isbn with
  | .int n => calcBothCore (intChars n)
  | .str s => calcBothCore s
  | .other => .error .invalidArgument

/-! Helper lemmas about the embedded functions. -/

lemma isdecimal_ne_X {c : Char} (h : isdecimal c = true) : c ≠ 'X' := by
  intro he
  subst he
  exact absurd h (by decide)

lemma only_number_shape {x s : List Char} (h : only_number x = .ok s) :
    ∃ d, (∀ c ∈ d, isdecimal c = true) ∧ (s = d ∨ s = d ++ ['X']) := by
  unfold only_number at h
  split at h
  · exact absurd h (by simp)
  · split at h
    · simp only [Except.ok.injEq] at h
      exact ⟨x.dropLast.filter isdecimal,
        fun a ha => (List.mem_filter.mp ha).2, Or.inr h.symm⟩
    · simp only [Except.ok.injEq] at h
      exact ⟨x.filter isdecimal, fun a ha => (List.mem_filter.mp ha).2, Or.inl h.symm⟩

lemma only_number_digits_id {d : List Char} (hne : d ≠ [])
    (hd : ∀ c ∈ d, isdecimal c = true) : only_number d = .ok d := by
  simp only [only_number, List.getLast?_eq_getLast d hne]
  rw [if_neg (isdecimal_ne_X (hd _ (List.getLast_mem hne))),
    List.filter_eq_self.mpr hd]

lemma only_number_X_id {d : List Char} (hd : ∀ c ∈ d, isdecimal c = true) :
    only_number (d ++ ['X']) = .ok (d ++ ['X']) := by
  simp only [only_number, List.getLast?_concat]
  rw [if_pos trivial, List.dropLast_concat, List.filter_eq_self.mpr hd]

lemma only_number_idem {x s : List Char} (h : only_number x = .ok s) (hne : s ≠ []) :
    only_number s = .ok s := by
  obtain ⟨d, hd, hs | hs⟩ := only_number_shape h
  · subst hs; exact only_number_digits_id hne hd
  · subst hs; exact only_number_X_id hd

lemma only_number_dropLast_digits {x s : List Char} (h : only_number x = .ok s) :
    ∀ c ∈ s.dropLast, isdecimal c = true := by
  obtain ⟨d, hd, hs | hs⟩ := only_number_shape h
  · subst hs; exact fun c hc => hd c (List.dropLast_subset _ hc)
  · subst hs; rw [List.dropLast_concat]; exact hd

lemma weightedCharSum_ok (w : Nat → Nat) (l : List Char) :
    ∀ i acc : Nat, (∀ c ∈ l, isdecimal c = true) →
      weightedCharSum w l i acc = .ok (acc + digitSum w l i) := by
  induction l with
  | nil => intro i acc _; simp [weightedCharSum, digitSum]
  | cons c cs ih =>
    intro i acc h
    have hc : isdecimal c = true := h c (by simp)
    have hp : pyInt c = .ok (c.toNat - 48) := by rw [pyInt, if_pos hc]
    simp only [weightedCharSum, hp]
    rw [ih (i + 1) (acc + (c.toNat - 48) * w i) (fun a ha => h a (by simp [ha]))]
    rw [digitSum, Nat.add_assoc]

lemma strDigit_decimal {n : Nat} (h : n < 10) : isdecimal (strDigit n) = true := by
  interval_cases n <;> decide

lemma isbn13Body_digits {x s : List Char} (h : only_number x = .ok s) :
    ∀ c ∈ ['9', '7', '8'] ++ s.dropLast, isdecimal c = true := by
  intro c hc
  rcases List.mem_append.mp hc with h9 | hd
  · have : c = '9' ∨ c = '7' ∨ c = '8' := by simpa using h9
    rcases this with rfl | rfl | rfl <;> decide
  · exact only_number_dropLast_digits h c hd

lemma isbn10_to_isbn13_ok {x s : List Char} (h : only_number x = .ok s)
    (hl : s.length = 10) :
    isbn10_to_isbn13 x = .ok (['9', '7', '8'] ++ s.dropLast ++
      [strDigit ((10 - digitSum w13 (['9', '7', '8'] ++ s.dropLast) 0 % 10) % 10)]) := by
  simp only [isbn10_to_isbn13, h]
  rw [if_neg (by simp [hl])]
  simp only [weightedCharSum_ok w13 _ 0 0 (isbn13Body_digits h), Nat.zero_add]

lemma isbn10Body_digits {x s : List Char} (h : only_number x = .ok s)
    (hl : s.length = 13) : ∀ c ∈ (s.drop 3).dropLast, isdecimal c = true := by
  intro c hc
  apply only_number_dropLast_digits h
  have h1 : (s.drop 3).dropLast = s.dropLast.drop 3 := by
    rw [List.dropLast_eq_take, List.dropLast_eq_take, List.drop_take,
      List.length_drop, hl]
  rw [h1] at hc
  exact List.drop_subset _ _ hc

lemma isbn13_to_isbn10_ok {x s : List Char} (h : only_number x = .ok s)
    (hl : s.length = 13) (hp : s.take 3 = ['9', '7', '8']) :
    isbn13_to_isbn10 x = .ok ((s.drop 3).dropLast ++
      (if (11 - digitSum w10 ((s.drop 3).dropLast) 0 % 11) % 11 = 10 then ['X']
       else [strDigit ((11 - digitSum w10 ((s.drop 3).dropLast) 0 % 11) % 11)])) := by
  simp only [isbn13_to_isbn10, h]
  rw [if_neg (by simp [hl, hp])]
  simp only [weightedCharSum_ok w10 _ 0 0 (isbn10Body_digits h hl), Nat.zero_add]

/-- Oracle model of the HTTP layer used by the four provider clients: a
`requests.get` call either raises a timeout, a connection error or some
other exception, or yields a response with a status code and a body. -/
inductive Transport (β : Type) where
  | timeout
  | connectionError
  | otherException
  | response (status : Nat) (body : β)

/-- Embedding of `OpenLibraryAPI.isbn_search` over the HTTP oracle: every
exception and every non-200 status yields `None`; a 200 response yields the
JSON-parsed body (the parser is abstract). -/
def OpenLibraryAPI.isbn_search {α : Type} (parseJson : String → α)
    (o : Transport String) : Option α :=
  match o with
  | .timeout => none
  | .connectionError => none
  | .otherException => none
  | .response status body => if status = 200 then some (parseJson body) else none

/-- Embedding of `OpenLibraryAPI.author_search`, identical in shape. -/
def OpenLibraryAPI.author_search {α : Type} (parseJson : String → α)
    (o : Transport String) : Option α :=
  match o with
  | .timeout => none
  | .connectionError => none
  | .otherException => none
  | .response status body => if status = 200 then some (parseJson body) else none

/-- Embedding of `GoogleBooksAPI.isbn_search` over the HTTP oracle. -/
def GoogleBooksAPI.isbn_search {α : Type} (parseJson : String → α)
    (o : Transport String) : Option α :=
  match o with
  | .timeout => none
  | .connectionError => none
  | .otherException => none
  | .response status body => if status = 200 then some (parseJson body) else none

/-- Embedding of `NDLAPI.isbn_search` over the HTTP oracle: a 200 response is
parsed as XML (`xmltodict.parse`, abstract here) instead of JSON. -/
def NDLAPI.isbn_search {α : Type} (parseXml : String → α)
    (o : Transport String) : Option α :=
  match o with
  | .timeout => none
  | .connectionError => none
  | .otherException => none
  | .response status body => if status = 200 then some (parseXml body) else none

/-- Embedding of `OpenBDAPI.isbn_search` over the HTTP oracle. -/
def OpenBDAPI.isbn_search {α : Type} (parseJson : String → α)
    (o : Transport String) : Option α :=
  match o with
  | .timeout => none
  | .connectionError => none
  | .otherException => none
  | .response status body => if status = 200 then some (parseJson body) else none

/-! Claim theorems. -/

/-- C1 (amended): for every input `x` whose `only_number` normalization `s` is
a valid ISBN-10 (length 10, with a correct modulo-11 check character in the
last position), the round trip `isbn13_to_isbn10 (isbn10_to_isbn13 x)`
succeeds and returns the normalized form `s`; in particular it returns `x`
itself exactly when `x` is already normalized. -/
theorem isbn10_roundtrip_normalized {x s : List Char} (h : only_number x = .ok s)
    (hl : s.length = 10) (hck : s = s.take 9 ++ [isbn10CheckChar (s.take 9)]) :
    (isbn10_to_isbn13 x).bind isbn13_to_isbn10 = .ok s := by
  have hsdl : s.dropLast = s.take 9 := by rw [List.dropLast_eq_take, hl]
  have h13 := isbn10_to_isbn13_ok h hl
  rw [hsdl] at h13
  set b := s.take 9 with hb
  set m := (10 - digitSum w13 (['9', '7', '8'] ++ b) 0 % 10) % 10 with hm
  have hmlt : m < 10 := Nat.mod_lt _ (by norm_num)
  have htd : ∀ c ∈ ['9', '7', '8'] ++ b ++ [strDigit m], isdecimal c = true := by
    intro c hc
    rcases List.mem_append.mp hc with h1 | h2
    · exact isbn13Body_digits h c (by rw [hsdl]; exact h1)
    · have hc' : c = strDigit m := by simpa using h2
      subst hc'
      exact strDigit_decimal hmlt
  have hb9 : b.length = 9 := by rw [hb, List.length_take, hl]; decide
  have hlen : (['9', '7', '8'] ++ b ++ [strDigit m]).length = 13 := by simp [hb9]
  have hne : (['9', '7', '8'] ++ b ++ [strDigit m]) ≠ [] := by simp
  have hon := only_number_digits_id hne htd
  have hpre : (['9', '7', '8'] ++ b ++ [strDigit m]).take 3 = ['9', '7', '8'] := rfl
  have h10 := isbn13_to_isbn10_ok hon hlen hpre
  have hdrop : ((['9', '7', '8'] ++ b ++ [strDigit m]).drop 3).dropLast = b := by
    show (b ++ [strDigit m]).dropLast = b
    exact List.dropLast_concat
  rw [hdrop] at h10
  rw [h13]
  show isbn13_to_isbn10 (['9', '7', '8'] ++ b ++ [strDigit m]) = .ok s
  rw [h10, hck]
  unfold isbn10CheckChar
  by_cases hcd : (11 - digitSum w10 b 0 % 11) % 11 = 10 <;> simp [hcd]

/-- Witness for C1: the round trip on the already-normalized valid ISBN-10
`0306406152` returns it unchanged. -/
theorem isbn10_roundtrip_normalized_witness :
    (isbn10_to_isbn13 "0306406152".toList).bind isbn13_to_isbn10 =
      .ok "0306406152".toList :=
  isbn10_roundtrip_normalized (by decide) (by decide) (by decide)

/-- Counterexample for C1 as stated: `-0306406152` normalizes to the valid
ISBN-10 `0306406152` (with a correct check digit), yet the round trip returns
the normalized form, which differs from the input. -/
theorem isbn10_roundtrip_not_input :
    only_number "-0306406152".toList = .ok "0306406152".toList ∧
    ("0306406152".toList).length = 10 ∧
    "0306406152".toList =
      ("0306406152".toList).take 9 ++
        [isbn10CheckChar (("0306406152".toList).take 9)] ∧
    (isbn10_to_isbn13 "-0306406152".toList).bind isbn13_to_isbn10 =
      .ok "0306406152".toList ∧
    "0306406152".toList ≠ "-0306406152".toList := by
  refine ⟨by decide, by decide, by decide, ?_, by decide⟩
  decide

/-- C2 (amended): for every input normalizing to a length-10 string `s`,
`isbn10_to_isbn13` returns the 13-character numeric string formed by the body
`978` ++ first 9 characters of `s`, followed by the check digit
`(10 - (S mod 10)) mod 10` where `S` weights even 0-indexed positions by 1
and odd ones by 3; in particular `isbn10_to_isbn13 "0306406152"` is
`"9780306406157"` (and not `"9780306406153"` as the spec's vector says). -/
theorem isbn10_to_isbn13_spec {x s : List Char} (h : only_number x = .ok s)
    (hl : s.length = 10) :
    isbn10_to_isbn13 x = .ok (['9', '7', '8'] ++ s.take 9 ++
      [strDigit ((10 - digitSum w13 (['9', '7', '8'] ++ s.take 9) 0 % 10) % 10)]) ∧
    (['9', '7', '8'] ++ s.take 9 ++
      [strDigit ((10 - digitSum w13 (['9', '7', '8'] ++ s.take 9) 0 % 10) % 10)]).length
      = 13 ∧
    (∀ c ∈ ['9', '7', '8'] ++ s.take 9 ++
      [strDigit ((10 - digitSum w13 (['9', '7', '8'] ++ s.take 9) 0 % 10) % 10)],
      isdecimal c = true) ∧
    isbn10_to_isbn13 "0306406152".toList = .ok "9780306406157".toList := by
  have hsdl : s.dropLast = s.take 9 := by rw [List.dropLast_eq_take, hl]
  have h9 : (s.take 9).length = 9 := by rw [List.length_take, hl]; decide
  have hmlt : (10 - digitSum w13 (['9', '7', '8'] ++ s.take 9) 0 % 10) % 10 < 10 :=
    Nat.mod_lt _ (by norm_num)
  refine ⟨?_, by simp [h9], ?_, by decide⟩
  · have h13 := isbn10_to_isbn13_ok h hl
    rwa [hsdl] at h13
  · intro c hc
    rcases List.mem_append.mp hc with h1 | h2
    · exact isbn13Body_digits h c (by rw [hsdl]; exact h1)
    · have hc' := List.mem_singleton.mp h2
      subst hc'
      exact strDigit_decimal hmlt

/-- Witness for C2: the amended known vector, obtained from the theorem. -/
theorem isbn10_to_isbn13_spec_witness :
    isbn10_to_isbn13 "0306406152".toList = .ok "9780306406157".toList :=
  (isbn10_to_isbn13_spec (x := "0306406152".toList) (s := "0306406152".toList)
    (by decide) (by decide)).2.2.2

/-- Counterexample for C2 as stated: the spec's known vector is wrong; the
code maps `0306406152` to `9780306406157`, not `9780306406153`. -/
theorem isbn10_to_isbn13_vector_false :
    isbn10_to_isbn13 "0306406152".toList = .ok "9780306406157".toList ∧
    ¬ isbn10_to_isbn13 "0306406152".toList = .ok "9780306406153".toList := by
  exact ⟨by decide, by decide⟩

/-- C3: for every input normalizing to a length-13 string `s` starting with
`978`, `isbn13_to_isbn10` returns the 10-character string formed by the
characters at positions 3 through 11 of `s` followed by the check digit
`(11 - (S mod 11)) mod 11` under weights `10 - i`, rendered as `X` when it
equals 10 and as a decimal digit otherwise; in particular
`isbn13_to_isbn10 "9780306406153"` is `"0306406152"`. -/
theorem isbn13_to_isbn10_spec {x s : List Char} (h : only_number x = .ok s)
    (hl : s.length = 13) (hp : s.take 3 = ['9', '7', '8']) :
    isbn13_to_isbn10 x = .ok ((s.drop 3).take 9 ++
      (if (11 - digitSum w10 ((s.drop 3).take 9) 0 % 11) % 11 = 10 then ['X']
       else [strDigit ((11 - digitSum w10 ((s.drop 3).take 9) 0 % 11) % 11)])) ∧
    ((s.drop 3).take 9 ++
      (if (11 - digitSum w10 ((s.drop 3).take 9) 0 % 11) % 11 = 10 then ['X']
       else [strDigit ((11 - digitSum w10 ((s.drop 3).take 9) 0 % 11) % 11)])).length
      = 10 ∧
    isbn13_to_isbn10 "9780306406153".toList = .ok "0306406152".toList := by
  have hdt : (s.drop 3).dropLast = (s.drop 3).take 9 := by
    rw [List.dropLast_eq_take, List.length_drop, hl]
  have h9 : ((s.drop 3).take 9).length = 9 := by
    rw [List.length_take, List.length_drop, hl]; decide
  refine ⟨?_, ?_, by decide⟩
  · have h10 := isbn13_to_isbn10_ok h hl hp
    rwa [hdt] at h10
  · by_cases hcd : (11 - digitSum w10 ((s.drop 3).take 9) 0 % 11) % 11 = 10 <;>
      simp [hcd, h9]

/-- Witness for C3: the known vector, obtained from the theorem. -/
theorem isbn13_to_isbn10_spec_witness :
    isbn13_to_isbn10 "9780306406153".toList = .ok "0306406152".toList :=
  (isbn13_to_isbn10_spec (x := "9780306406153".toList)
    (s := "9780306406153".toList) (by decide) (by decide) (by decide)).2.2

/-- C4 (amended): `only_number` is idempotent on every input whose
normalization is non-empty; on an input whose normalization is empty (one
with no decimal digit and no trailing `X`) the outer application raises
`IndexError` instead. -/
theorem only_number_idempotent {x s : List Char} (h : only_number x = .ok s)
    (hne : s ≠ []) : (only_number x).bind only_number = only_number x := by
  rw [h]
  show only_number s = .ok s
  exact only_number_idem h hne

/-- Witness for C4: idempotence on the decorated input `0-306-40615-2`. -/
theorem only_number_idempotent_witness :
    (only_number "0-306-40615-2".toList).bind only_number =
      only_number "0-306-40615-2".toList :=
  only_number_idempotent (s := "0306406152".toList) (by decide) (by decide)

/-- Counterexample for C4 as stated: the length-1 input `a` normalizes to the
empty string, on which the second application of `only_number` raises
`IndexError`, so the normalizer is not idempotent on all non-empty inputs. -/
theorem only_number_not_idempotent :
    ("a".toList).length ≥ 1 ∧
    (only_number "a".toList).bind only_number ≠ only_number "a".toList := by
  exact ⟨by decide, by decide⟩

/-- C5: `calc_both_isbn` coerces an integer argument to its decimal string,
rejects any other non-string argument with `InvalidArgument`, and on a string
normalizing to `s` returns `(s, isbn10_to_isbn13 s)` when `s` has length 10,
the pair `(isbn13_to_isbn10 s, s)` when `s` has length 13 (propagating any
error of the converter), and `InvalidFormat` otherwise. -/
theorem calc_both_isbn_spec :
    (∀ n : Int, calc_both_isbn (.int n) = calc_both_isbn (.str (intChars n))) ∧
    calc_both_isbn .other = .error .invalidArgument ∧
    ∀ x s : List Char, only_number x = .ok s →
      (s.length = 10 →
        ∃ i13, isbn10_to_isbn13 s = .ok i13 ∧
          calc_both_isbn (.str x) = .ok (s, i13)) ∧
      (s.length = 13 →
        calc_both_isbn (.str x) = (isbn13_to_isbn10 s).map fun i10 => (i10, s)) ∧
      (s.length ≠ 10 → s.length ≠ 13 →
        calc_both_isbn (.str x) = .error .invalidFormat) := by
  refine ⟨fun n => rfl, rfl, fun x s h => ⟨?_, ?_, ?_⟩⟩
  · intro hl
    have hne : s ≠ [] := by intro he; rw [he] at hl; exact absurd hl (by decide)
    have hon : only_number s = .ok s := only_number_idem h hne
    have h13 := isbn10_to_isbn13_ok hon hl
    refine ⟨_, h13, ?_⟩
    show calcBothCore x = _
    simp only [calcBothCore, h]
    rw [if_pos hl]
    simp only [h13]
  · intro hl
    show calcBothCore x = _
    simp only [calcBothCore, h]
    rw [if_neg (by rw [hl]; decide), if_pos hl]
    cases hr : isbn13_to_isbn10 s <;> simp [hr, Except.map]
  · intro h10 h13
    show calcBothCore x = _
    simp only [calcBothCore, h]
    rw [if_neg h10, if_neg h13]

/-- Witness for C5: a string of 5 digits is rejected with `InvalidFormat`,
via the theorem applied at that input. -/
theorem calc_both_isbn_spec_witness :
    calc_both_isbn (.str "12345".toList) = .error .invalidFormat :=
  ((calc_both_isbn_spec.2.2 "12345".toList "12345".toList (by decide)).2.2
    (by decide) (by decide))

/-- C6: any input whose normalization has a length other than 10 and 13 is
rejected with `InvalidFormat` by `isbn10_to_isbn13`, `isbn13_to_isbn10` and
`calc_both_isbn` alike. -/
theorem invalid_length_invalidFormat {x s : List Char}
    (h : only_number x = .ok s) (h10 : s.length ≠ 10) (h13 : s.length ≠ 13) :
    isbn10_to_isbn13 x = .error .invalidFormat ∧
    isbn13_to_isbn10 x = .error .invalidFormat ∧
    calc_both_isbn (.str x) = .error .invalidFormat := by
  refine ⟨?_, ?_, ?_⟩
  · simp only [isbn10_to_isbn13, h]
    rw [if_pos h10]
  · simp only [isbn13_to_isbn10, h]
    rw [if_pos (Or.inl h13)]
  · show calcBothCore x = _
    simp only [calcBothCore, h]
    rw [if_neg h10, if_neg h13]

/-- Witness for C6: the length-4 input `1234` is rejected everywhere. -/
theorem invalid_length_invalidFormat_witness :
    isbn10_to_isbn13 "1234".toList = .error .invalidFormat ∧
    isbn13_to_isbn10 "1234".toList = .error .invalidFormat ∧
    calc_both_isbn (.str "1234".toList) = .error .invalidFormat :=
  invalid_length_invalidFormat (s := "1234".toList)
    (by decide) (by decide) (by decide)

/-- C7: an input normalizing to a length-13 string that does not start with
`978` is rejected by `isbn13_to_isbn10` with `InvalidFormat`. -/
theorem isbn13_non978_invalidFormat {x s : List Char}
    (h : only_number x = .ok s) (hl : s.length = 13)
    (hp : s.take 3 ≠ ['9', '7', '8']) :
    isbn13_to_isbn10 x = .error .invalidFormat := by
  simp only [isbn13_to_isbn10, h]
  rw [if_pos (Or.inr hp)]

/-- Witness for C7: the 979-prefixed input `9790306406153` is rejected. -/
theorem isbn13_non978_invalidFormat_witness :
    isbn13_to_isbn10 "9790306406153".toList = .error .invalidFormat :=
  isbn13_non978_invalidFormat (s := "9790306406153".toList)
    (by decide) (by decide) (by decide)

/-- C8: `only_number` examines the last character of its input
unconditionally, so on the empty string it raises an index-out-of-range
error instead of returning a value. -/
theorem only_number_empty_indexError :
    only_number ([] : List Char) = .error .indexError := rfl

/-- C9: neither converter validates the check digit of its own input: two
inputs whose length-10 normalizations share their first 9 characters give
the same `isbn10_to_isbn13` output, and two inputs whose length-13
`978`-prefixed normalizations share their first 12 characters give the same
`isbn13_to_isbn10` output. -/
theorem converters_ignore_check_digit :
    (∀ x y s t : List Char, only_number x = .ok s → only_number y = .ok t →
      s.length = 10 → t.length = 10 → s.take 9 = t.take 9 →
      isbn10_to_isbn13 x = isbn10_to_isbn13 y) ∧
    (∀ x y s t : List Char, only_number x = .ok s → only_number y = .ok t →
      s.length = 13 → t.length = 13 → s.take 3 = ['9', '7', '8'] →
      t.take 3 = ['9', '7', '8'] → s.take 12 = t.take 12 →
      isbn13_to_isbn10 x = isbn13_to_isbn10 y) := by
  constructor
  · intro x y s t hx hy hls hlt hagree
    have hs : s.dropLast = s.take 9 := by rw [List.dropLast_eq_take, hls]
    have ht : t.dropLast = t.take 9 := by rw [List.dropLast_eq_take, hlt]
    rw [isbn10_to_isbn13_ok hx hls, isbn10_to_isbn13_ok hy hlt, hs, ht, hagree]
  · intro x y s t hx hy hls hlt hps hpt hagree
    have hs : (s.drop 3).dropLast = (s.take 12).drop 3 := by
      rw [List.dropLast_eq_take, List.length_drop, hls, List.drop_take]
    have ht : (t.drop 3).dropLast = (t.take 12).drop 3 := by
      rw [List.dropLast_eq_take, List.length_drop, hlt, List.drop_take]
    rw [isbn13_to_isbn10_ok hx hls hps, isbn13_to_isbn10_ok hy hlt hpt,
      hs, ht, hagree]

/-- Witness for C9: flipping the check digit of a valid ISBN-10 (even to the
letter `X`) or of a valid ISBN-13 does not change the converter's output. -/
theorem converters_ignore_check_digit_witness :
    isbn10_to_isbn13 "0306406152".toList = isbn10_to_isbn13 "030640615X".toList ∧
    isbn13_to_isbn10 "9780306406157".toList =
      isbn13_to_isbn10 "9780306406153".toList :=
  ⟨converters_ignore_check_digit.1 "0306406152".toList "030640615X".toList
      "0306406152".toList "030640615X".toList
      (by decide) (by decide) (by decide) (by decide) (by decide),
    converters_ignore_check_digit.2 "9780306406157".toList "9780306406153".toList
      "9780306406157".toList "9780306406153".toList
      (by decide) (by decide) (by decide) (by decide) (by decide) (by decide)
      (by decide)⟩

/-- C10: for every provider client's `isbn_search` over the HTTP oracle, a
transport-level exception (timeout, connection failure, or any other
exception) yields `None`, any non-200 status yields `None`, and a 200 status
yields the parsed response body (JSON for OpenLibrary, Google Books and
OpenBD, XML for the National Diet Library); the model is a total function of
a single oracle outcome, so no exception propagates and no retry is made. -/
theorem providers_isbn_search_spec (α : Type) (pj px : String → α)
    (st : Nat) (b : String) :
    (OpenLibraryAPI.isbn_search pj .timeout = none ∧
      OpenLibraryAPI.isbn_search pj .connectionError = none ∧
      OpenLibraryAPI.isbn_search pj .otherException = none ∧
      (st ≠ 200 → OpenLibraryAPI.isbn_search pj (.response st b) = none) ∧
      OpenLibraryAPI.isbn_search pj (.response 200 b) = some (pj b)) ∧
    (GoogleBooksAPI.isbn_search pj .timeout = none ∧
      GoogleBooksAPI.isbn_search pj .connectionError = none ∧
      GoogleBooksAPI.isbn_search pj .otherException = none ∧
      (st ≠ 200 → GoogleBooksAPI.isbn_search pj (.response st b) = none) ∧
      GoogleBooksAPI.isbn_search pj (.response 200 b) = some (pj b)) ∧
    (OpenBDAPI.isbn_search pj .timeout = none ∧
      OpenBDAPI.isbn_search pj .connectionError = none ∧
      OpenBDAPI.isbn_search pj .otherException = none ∧
      (st ≠ 200 → OpenBDAPI.isbn_search pj (.response st b) = none) ∧
      OpenBDAPI.isbn_search pj (.response 200 b) = some (pj b)) ∧
    (NDLAPI.isbn_search px .timeout = none ∧
      NDLAPI.isbn_search px .connectionError = none ∧
      NDLAPI.isbn_search px .otherException = none ∧
      (st ≠ 200 → NDLAPI.isbn_search px (.response st b) = none) ∧
      NDLAPI.isbn_search px (.response 200 b) = some (px b)) := by
  refine ⟨⟨rfl, rfl, rfl, fun h => ?_, rfl⟩, ⟨rfl, rfl, rfl, fun h => ?_, rfl⟩,
    ⟨rfl, rfl, rfl, fun h => ?_, rfl⟩, ⟨rfl, rfl, rfl, fun h => ?_, rfl⟩⟩
  · show (if st = 200 then some (pj b) else none) = none
    rw [if_neg h]
  · show (if st = 200 then some (pj b) else none) = none
    rw [if_neg h]
  · show (if st = 200 then some (pj b) else none) = none
    rw [if_neg h]
  · show (if st = 200 then some (px b) else none) = none
    rw [if_neg h]

/-- Witness for C10: a 404 yields `None` and a 200 yields the parsed body,
at concrete instantiations of the parsers and oracle. -/
theorem providers_isbn_search_spec_witness :
    OpenLibraryAPI.isbn_search (fun s => s) (.response 404 "missing") = none ∧
    NDLAPI.isbn_search (fun s => s) (.response 200 "doc") = some "doc" :=
  ⟨(providers_isbn_search_spec String (fun s => s) (fun s => s)
      404 "missing").1.2.2.2.1 (by decide),
    (providers_isbn_search_spec String (fun s => s) (fun s => s)
      404 "doc").2.2.2.2.2.2.2⟩

